import Mathlib

/-!
Verification of the `jackhenrytest` weather server (Go).

The Go source is shallowly embedded:

* `float64` values are modelled by `GoFloat`: NaN, the two infinities, and
  finite values carried as rationals.  The program only ever compares
  temperatures (`<`), so the model only needs IEEE-754 comparison semantics:
  any comparison involving NaN is false.  Every real `float64` denotes a
  value of this type, so universally quantified theorems over `GoFloat`
  cover all `float64` inputs.
* HTTP plumbing is embedded structurally: a request record, a response
  record, and the handler as a pure function.  The upstream fetches done by
  `httpGet` (network + JSON decode) are parameters: an oracle from URL to
  either an error string or the decoded payload, with Go's
  `encoding/json` zero-value semantics (a missing `forecast` field decodes
  to `""`, a missing `periods` field decodes to the empty list).
* `context.Context` values are modelled by the `Ctx` tree, and the handler
  additionally returns a trace of events (deadline derivations and the
  context handed to each upstream step) so that deadline-sharing can be
  stated.
* `strconv.ParseFloat` is a parameter (`String → Except String GoFloat`):
  the pipeline only branches on success/failure and surfaces the error
  string, which is all the claims need.
-/

/-- Model of Go `float64` for this program: NaN, infinities, and finite
values as rationals.  The program never does float arithmetic on
temperatures, only comparisons. -/
inductive GoFloat where
  | nan : GoFloat
  | negInf : GoFloat
  | posInf : GoFloat
  | finite (val : ℚ) : GoFloat
deriving DecidableEq, Repr

/-- IEEE-754 `<` as used by Go's `t < 40`: any comparison with NaN is
false; -Inf is below everything else; +Inf above everything else. -/
def GoFloat.lt : GoFloat → GoFloat → Bool
  | .nan, _ => false
  | _, .nan => false
  | .negInf, .negInf => false
  | .negInf, _ => true
  | _, .negInf => false
  | .posInf, _ => false
  | .finite _, .posInf => true
  | .finite a, .finite b => decide (a < b)

/-- IEEE-754 `<=`: false whenever NaN is involved, otherwise the usual
order. -/
def GoFloat.le : GoFloat → GoFloat → Bool
  | .nan, _ => false
  | _, .nan => false
  | .negInf, _ => true
  | _, .negInf => false
  | _, .posInf => true
  | .posInf, .finite _ => false
  | .finite a, .finite b => decide (a ≤ b)

/-- Embedding of `tempratureAnalog` (weatherserver.go): below 40 is
"cold", below 80 is "moderate", otherwise "hot". -/
def tempratureAnalog (t : GoFloat) : String :=
  if t.lt (.finite 40) then "cold"
  else if t.lt (.finite 80) then "moderate"
  else "hot"

/-- An inbound HTTP request as the handler consumes it.  `none` for a
header or query parameter means it is absent from the request. -/
structure HttpRequest where
  method : String
  path : String
  accept : Option String
  latParam : Option String
  lonParam : Option String
deriving DecidableEq, Repr

/-- Go's `Header.Get` returns the empty string when the header is
absent. -/
def headerGet (h : Option String) : String := h.getD ""

/-- Go's `URL.Query().Get` returns the empty string when the query
parameter is absent. -/
def queryGet (q : Option String) : String := q.getD ""

/-- The `acceptedTypes` set from weatherserver.go (a Go map used only for
exact-key membership). -/
def acceptedTypes : List String := ["*/*", "text/*", "text/plain"]

/-- Outcome of `validRequest`: either an error already written to the
response writer (status plus `http.Error` message), or the parsed
coordinates. -/
inductive ValidResult where
  | invalid (status : Nat) (msg : String) : ValidResult
  | valid (latitude longitude : GoFloat) : ValidResult
deriving DecidableEq, Repr

/-- Embedding of `validRequest` (weatherserver.go).  `parseFloat` stands
for `strconv.ParseFloat(s, 64)`: either the parse-error text of
`err.Error()` or the parsed value; the handler only branches on the
outcome and surfaces the error text. -/
def validRequest (parseFloat : String → Except String GoFloat)
    (request : HttpRequest) : ValidResult :=
  if request.method ≠ "GET" then
    .invalid 405 "only GET allowed"
  else if request.path ≠ "/weather" then
    .invalid 404 "only /weather allowed"
  else if ¬ acceptedTypes.contains (headerGet request.accept) then
    .invalid 406 "must accept text/plain"
  else
    let latitudeString := queryGet request.latParam
    let longitudeString := queryGet request.lonParam
    if latitudeString = "" ∨ longitudeString = "" then
      .invalid 400 "query params 'lat' and 'lon' are required"
    else
      match parseFloat latitudeString with
      | .error e => .invalid 400 ("invalid 'lat' query param: " ++ e)
      | .ok latitude =>
        match parseFloat longitudeString with
        | .error e => .invalid 400 ("invalid 'lon' query param: " ++ e)
        | .ok longitude => .valid latitude longitude

/-- Decoded shape of the points payload in `forcastGrid`: Go's json
unmarshal decodes a missing or null `forecast` field to the zero value
`""`. -/
structure PointsPayload where
  forecast : String
deriving DecidableEq, Repr

/-- One element of the `periods` array in `forecastGet`'s payload. -/
structure ForecastPeriod where
  temperature : GoFloat
  shortForecast : String
deriving DecidableEq, Repr

/-- Decoded shape of the forecast payload: a missing `periods` field
decodes to the empty list (Go zero value). -/
structure ForecastPayload where
  periods : List ForecastPeriod
deriving DecidableEq, Repr

/-- Rendering of `fmt.Sprintf("%f", x)`: fixed-point with six decimal
digits (rounding modelled as round-half-up on the rational value).  No
claim depends on this rendering; it only keys the fetch oracle. -/
def goFmtF : GoFloat → String
  | .nan => "NaN"
  | .posInf => "+Inf"
  | .negInf => "-Inf"
  | .finite q =>
    let sign := if q < 0 then "-" else ""
    let scaled : Int := ⌊|q| * 1000000 + 1/2⌋
    let intPart : Nat := (scaled / 1000000).toNat
    let fracPart : Nat := (scaled % 1000000).toNat
    let fracDigits := toString fracPart
    sign ++ toString intPart ++ "." ++
      String.mk (List.replicate (6 - fracDigits.length) '0') ++ fracDigits

/-- The URL built by `forcastGrid` from the template
`https://api.weather.gov/points/%f,%f`. -/
def pointsApi (lat lon : GoFloat) : String :=
  "https://api.weather.gov/points/" ++ goFmtF lat ++ "," ++ goFmtF lon

/-- Embedding of `forcastGrid` (weatherserver.go).  `fetch` stands for
`httpGet` specialised to the points payload: transport/status/decode
failures are `.error`, a decoded payload is `.ok`.  The function
propagates a fetch error and otherwise returns the payload's `forecast`
field as-is. -/
def forcastGrid (fetch : String → Except String PointsPayload)
    (lat lon : GoFloat) : Except String String :=
  match fetch (pointsApi lat lon) with
  | .error e => .error e
  | .ok payload => .ok payload.forecast

/-- Embedding of `forecastGet` (weatherserver.go): fetches the endpoint,
fails with "no periods found" when the periods sequence is empty, and
otherwise returns the first period's short forecast and mapped
temperature. -/
def forecastGet (fetch : String → Except String ForecastPayload)
    (endpoint : String) : Except String (String × String) :=
  match fetch endpoint with
  | .error e => .error e
  | .ok payload =>
    match payload.periods with
    | [] => .error "no periods found"
    | period :: _ => .ok (period.shortForecast, tempratureAnalog period.temperature)

/-- Model of `context.Context`: the inbound request's context plus
derivations via `context.WithTimeout` (timeout in milliseconds). -/
inductive Ctx where
  | base : Ctx
  | withTimeout (parent : Ctx) (timeoutMillis : Nat) : Ctx
deriving DecidableEq, Repr

/-- Observable pipeline events: a deadline derivation, and each outbound
resolver step together with the context value it receives. -/
inductive Event where
  | deriveDeadline (timeoutMillis : Nat) : Event
  | gridCall (ctx : Ctx) : Event
  | forecastCall (ctx : Ctx) : Event
deriving DecidableEq, Repr

/-- The response as observed by the client: status, the explicitly set
headers (`none` when the handler does not set them), and the body. -/
structure Response where
  status : Nat
  contentType : Option String
  contentLength : Option Nat
  body : String
deriving DecidableEq, Repr

/-- Go's `http.Error(w, msg, status)`: sets the status, a
`text/plain; charset=utf-8` content type, and writes `msg` followed by a
newline; it does not set Content-Length itself. -/
def httpError (msg : String) (status : Nat) : Response :=
  { status := status
    contentType := some "text/plain; charset=utf-8"
    contentLength := none
    body := msg ++ "\n" }

/-- Embedding of `Server.ServeHTTP` (weatherserver.go).  The two fetch
oracles stand for `httpGet` through `s.Client` for the two payload
shapes; they take the context they are handed so the trace can record
it.  Returns the response together with the ordered event trace. -/
def ServeHTTP (parseFloat : String → Except String GoFloat)
    (fetchPoints : Ctx → String → Except String PointsPayload)
    (fetchForecast : Ctx → String → Except String ForecastPayload)
    (requestCtx : Ctx) (request : HttpRequest) : Response × List Event :=
  -- ctx, cancel := context.WithTimeout(request.Context(), 2*time.Second)
  let ctx := Ctx.withTimeout requestCtx 2000
  match validRequest parseFloat request with
  | .invalid status msg =>
      (httpError msg status, [.deriveDeadline 2000])
  | .valid lat lon =>
    match forcastGrid (fetchPoints ctx) lat lon with
    | .error e =>
        (httpError ("failed to fetch weather.gov points: " ++ e) 500,
         [.deriveDeadline 2000, .gridCall ctx])
    | .ok forecastEndpoint =>
      match forecastGet (fetchForecast ctx) forecastEndpoint with
      | .error e =>
          (httpError ("failed to fetch weather.gov forecast/temprature: " ++ e) 500,
           [.deriveDeadline 2000, .gridCall ctx, .forecastCall ctx])
      | .ok (weather, temprature) =>
        let response := weather ++ ", " ++ temprature ++ "\n"
        ({ status := 200
           contentType := some "text/plain"
           contentLength := some response.utf8ByteSize
           body := response },
         [.deriveDeadline 2000, .gridCall ctx, .forecastCall ctx])

/-- Is an event an outbound resolver call? -/
def Event.isUpstreamCall : Event → Bool
  | .gridCall _ => true
  | .forecastCall _ => true
  | .deriveDeadline _ => false

/-- Is an event a deadline derivation? -/
def Event.isDeriveDeadline : Event → Bool
  | .deriveDeadline _ => true
  | _ => false

/-- The package-level lifecycle state of the main package: the `listener`
variable (`none` models Go `nil`, `some id` an open listener) and
whether `listnerMutext` is held. -/
structure LifecycleState where
  listener : Option Nat
  mutexHeld : Bool
deriving DecidableEq, Repr

/-- Embedding of `stopServer` (main package), as the sequential state
transformation it performs once its `listnerMutext.Lock()` has been
granted: when no listener is open it returns immediately (without
reaching the `Unlock` call); otherwise it closes the listener, clears
the variable and unlocks. -/
def stopServer (s : LifecycleState) : LifecycleState :=
  let locked : LifecycleState := { s with mutexHeld := true }
  match locked.listener with
  | none => locked
  | some _ => { locked with listener := none, mutexHeld := false }

/-- Concrete parse stub used to instantiate theorems: fails on "abc"
with a strconv-style message, parses anything else as 1. -/
def parseFloatStub : String → Except String GoFloat := fun s =>
  if s = "abc" then .error "strconv.ParseFloat: parsing \"abc\": invalid syntax"
  else .ok (.finite 1)

/-- Concrete points-fetch stub: always returns a fixed endpoint. -/
def fetchPointsStub : Ctx → String → Except String PointsPayload :=
  fun _ _ => .ok ⟨"https://api.weather.gov/gridpoints/EAX/44,51/forecast"⟩

/-- Concrete forecast-fetch stub: one period, 72 degrees, "Sunny". -/
def fetchForecastStub : Ctx → String → Except String ForecastPayload :=
  fun _ _ => .ok ⟨[⟨.finite 72, "Sunny"⟩]⟩

/-- Concrete forecast-fetch stub whose payload has an empty periods
sequence. -/
def fetchForecastEmptyStub : Ctx → String → Except String ForecastPayload :=
  fun _ _ => .ok ⟨[]⟩

/-- A GET /weather request missing the `lon` query parameter. -/
def requestMissingLon : HttpRequest :=
  ⟨"GET", "/weather", some "*/*", some "39.0997", none⟩

/-- A GET /weather request whose `lat` query parameter is not numeric. -/
def requestBadLat : HttpRequest :=
  ⟨"GET", "/weather", some "text/plain", some "abc", some "-94.5786"⟩

/-- A fully valid GET /weather request. -/
def requestValid : HttpRequest :=
  ⟨"GET", "/weather", some "*/*", some "39.0997", some "-94.5786"⟩

/-- C1: for every float64 temperature `t`, `tempratureAnalog` returns
"cold" when `t < 40`, "moderate" when `40 ≤ t < 80`, and "hot" when
`t ≥ 80`; in particular exactly 40 yields "moderate" and exactly 80
yields "hot". -/
theorem tempratureAnalog_thresholds (t : GoFloat) :
    (t.lt (.finite 40) = true → tempratureAnalog t = "cold") ∧
    (GoFloat.le (.finite 40) t = true → t.lt (.finite 80) = true →
      tempratureAnalog t = "moderate") ∧
    (GoFloat.le (.finite 80) t = true → tempratureAnalog t = "hot") ∧
    tempratureAnalog (.finite 40) = "moderate" ∧
    tempratureAnalog (.finite 80) = "hot" := by
  refine ⟨?_, ?_, ?_, by decide, by decide⟩
  · intro h1
    cases t with
    | nan => simp [GoFloat.lt] at h1
    | negInf => rfl
    | posInf => simp [GoFloat.lt] at h1
    | finite q =>
      simp only [GoFloat.lt, decide_eq_true_eq] at h1
      simp [tempratureAnalog, GoFloat.lt, h1]
  · intro h1 h2
    cases t with
    | nan => simp [GoFloat.le] at h1
    | negInf => simp [GoFloat.le] at h1
    | posInf => simp [GoFloat.lt] at h2
    | finite q =>
      simp only [GoFloat.le, decide_eq_true_eq] at h1
      simp only [GoFloat.lt, decide_eq_true_eq] at h2
      simp [tempratureAnalog, GoFloat.lt, h2, not_lt.mpr h1]
  · intro h1
    cases t with
    | nan => simp [GoFloat.le] at h1
    | negInf => simp [GoFloat.le] at h1
    | posInf => rfl
    | finite q =>
      simp only [GoFloat.le, decide_eq_true_eq] at h1
      have h40 : ¬ q < 40 := by linarith
      have h80 : ¬ q < 80 := by linarith
      simp [tempratureAnalog, GoFloat.lt, h40, h80]

/-- Witness for C1 at the spec's concrete points 72, 100 and
−1398123.3. -/
theorem tempratureAnalog_thresholds_witness :
    tempratureAnalog (.finite 72) = "moderate" ∧
    tempratureAnalog (.finite 100) = "hot" ∧
    tempratureAnalog (.finite (mkRat (-13981233) 10)) = "cold" :=
  ⟨(tempratureAnalog_thresholds (.finite 72)).2.1 (by decide) (by decide),
   (tempratureAnalog_thresholds (.finite 100)).2.2.1 (by decide),
   (tempratureAnalog_thresholds (.finite (mkRat (-13981233) 10))).1 (by decide)⟩

/-- C10: `tempratureAnalog` is total over every float64 input and always
returns one of "cold", "moderate", "hot"; NaN, which satisfies neither
strict-less-than comparison, is classified "hot".  (Totality is by
construction: the Lean embedding is a total function.) -/
theorem tempratureAnalog_total (t : GoFloat) :
    (tempratureAnalog t = "cold" ∨ tempratureAnalog t = "moderate" ∨
      tempratureAnalog t = "hot") ∧
    tempratureAnalog GoFloat.nan = "hot" := by
  refine ⟨?_, rfl⟩
  unfold tempratureAnalog
  split
  · exact Or.inl rfl
  · split
    · exact Or.inr (Or.inl rfl)
    · exact Or.inr (Or.inr rfl)

/-- C9: the Accept-header check is exact string equality against
{"*/*", "text/*", "text/plain"}: any GET to /weather whose Accept value
is any other string — including parameterized or composite values — is
rejected with 406 "must accept text/plain". -/
theorem validRequest_accept_exact_match
    (parseFloat : String → Except String GoFloat) (request : HttpRequest)
    (a : String) (hm : request.method = "GET") (hp : request.path = "/weather")
    (ha : request.accept = some a) (hno : a ∉ acceptedTypes) :
    validRequest parseFloat request = .invalid 406 "must accept text/plain" := by
  simp only [acceptedTypes, List.mem_cons, List.not_mem_nil, or_false, not_or] at hno
  obtain ⟨h1, h2, h3⟩ := hno
  unfold validRequest
  rw [hm, hp, ha]
  simp [headerGet, acceptedTypes, h1, h2, h3]

/-- Witness for C9: `Accept: text/plain; charset=utf-8` is rejected with
406 even though its media range is plain text. -/
theorem validRequest_accept_exact_match_witness :
    validRequest (fun _ => .error "unused")
      { method := "GET", path := "/weather",
        accept := some "text/plain; charset=utf-8",
        latParam := some "39.0997", lonParam := some "-94.5786" } =
      .invalid 406 "must accept text/plain" :=
  validRequest_accept_exact_match _ _ "text/plain; charset=utf-8"
    rfl rfl rfl (by decide)

/-- C2 (code bug): the claim and the source comment ("Provide an error if
they explicitly accept anything other than text/plain") say a request
with no Accept header proceeds, but `Header.Get` yields `""` for an
absent header and `""` is not in `acceptedTypes`, so the code answers
406.  This theorem evaluates the embedded code at the failing input: an
otherwise fully valid GET /weather request with no Accept header. -/
theorem validRequest_absent_accept_rejected :
    validRequest (fun _ => .error "unused")
      { method := "GET", path := "/weather", accept := none,
        latParam := some "39.0997", lonParam := some "-94.5786" } =
      .invalid 406 "must accept text/plain" := by decide

/-- C7: for an otherwise-valid GET /weather request, a missing `lat` or
`lon` query parameter yields 400 bad-request; a present but unparsable
parameter yields 400 with the parse error text surfaced in the body; in
both cases the trace contains no outbound upstream call. -/
theorem bad_query_params_400_no_upstream
    (parseFloat : String → Except String GoFloat)
    (fetchPoints : Ctx → String → Except String PointsPayload)
    (fetchForecast : Ctx → String → Except String ForecastPayload)
    (requestCtx : Ctx) (request : HttpRequest)
    (hm : request.method = "GET") (hp : request.path = "/weather")
    (ha : acceptedTypes.contains (headerGet request.accept) = true) :
    ((queryGet request.latParam = "" ∨ queryGet request.lonParam = "") →
      (ServeHTTP parseFloat fetchPoints fetchForecast requestCtx request).1 =
        httpError "query params 'lat' and 'lon' are required" 400) ∧
    (∀ e, queryGet request.latParam ≠ "" → queryGet request.lonParam ≠ "" →
      parseFloat (queryGet request.latParam) = .error e →
      (ServeHTTP parseFloat fetchPoints fetchForecast requestCtx request).1 =
        httpError ("invalid 'lat' query param: " ++ e) 400) ∧
    (∀ lat e, queryGet request.latParam ≠ "" → queryGet request.lonParam ≠ "" →
      parseFloat (queryGet request.latParam) = .ok lat →
      parseFloat (queryGet request.lonParam) = .error e →
      (ServeHTTP parseFloat fetchPoints fetchForecast requestCtx request).1 =
        httpError ("invalid 'lon' query param: " ++ e) 400) ∧
    (∀ st msg, validRequest parseFloat request = .invalid st msg →
      ∀ ev ∈ (ServeHTTP parseFloat fetchPoints fetchForecast requestCtx request).2,
        ev.isUpstreamCall = false) := by
  have ha' : headerGet request.accept ∈ acceptedTypes := by
    simpa using ha
  refine ⟨?_, ?_, ?_, ?_⟩
  · intro hmiss
    unfold ServeHTTP validRequest
    rw [hm, hp]
    simp [ha', hmiss]
  · intro e hlat hlon hperr
    unfold ServeHTTP validRequest
    rw [hm, hp]
    simp [ha', hlat, hlon, hperr]
  · intro lat e hlat hlon hplat hperr
    unfold ServeHTTP validRequest
    rw [hm, hp]
    simp [ha', hlat, hlon, hplat, hperr]
  · intro st msg hinv
    unfold ServeHTTP
    rw [hinv]
    simp [Event.isUpstreamCall]

/-- Witness for C7: missing `lon` and non-numeric `lat` both yield the
400 responses of the claim, and the missing-parameter request produces
no upstream call event. -/
theorem bad_query_params_400_no_upstream_witness :
    (ServeHTTP parseFloatStub fetchPointsStub fetchForecastStub Ctx.base
        requestMissingLon).1 =
      httpError "query params 'lat' and 'lon' are required" 400 ∧
    (ServeHTTP parseFloatStub fetchPointsStub fetchForecastStub Ctx.base
        requestBadLat).1 =
      httpError
        "invalid 'lat' query param: strconv.ParseFloat: parsing \"abc\": invalid syntax"
        400 ∧
    (∀ ev ∈ (ServeHTTP parseFloatStub fetchPointsStub fetchForecastStub Ctx.base
        requestMissingLon).2, ev.isUpstreamCall = false) := by
  have h1 := bad_query_params_400_no_upstream parseFloatStub fetchPointsStub
    fetchForecastStub Ctx.base requestMissingLon rfl rfl (by decide)
  have h2 := bad_query_params_400_no_upstream parseFloatStub fetchPointsStub
    fetchForecastStub Ctx.base requestBadLat rfl rfl (by decide)
  refine ⟨h1.1 (by decide), ?_, ?_⟩
  · have := h2.2.1 "strconv.ParseFloat: parsing \"abc\": invalid syntax"
      (by decide) (by decide) rfl
    simpa using this
  · exact h1.2.2.2 400 "query params 'lat' and 'lon' are required" (by decide)

/-- C5: within a single request the pipeline derives exactly one
deadline-bound context (the fixed 2000 ms timeout), derives it before
resolution begins (it heads the trace), and hands that same context to
both resolver steps: every grid-call and forecast-call event carries
`Ctx.withTimeout requestCtx 2000`, so no new deadline appears between
step 1 and step 2. -/
theorem one_deadline_shared_context
    (parseFloat : String → Except String GoFloat)
    (fetchPoints : Ctx → String → Except String PointsPayload)
    (fetchForecast : Ctx → String → Except String ForecastPayload)
    (requestCtx : Ctx) (request : HttpRequest) :
    ((ServeHTTP parseFloat fetchPoints fetchForecast requestCtx request).2.countP
        Event.isDeriveDeadline = 1) ∧
    ((ServeHTTP parseFloat fetchPoints fetchForecast requestCtx request).2.head? =
        some (.deriveDeadline 2000)) ∧
    (∀ c, Event.gridCall c ∈
        (ServeHTTP parseFloat fetchPoints fetchForecast requestCtx request).2 →
      c = Ctx.withTimeout requestCtx 2000) ∧
    (∀ c, Event.forecastCall c ∈
        (ServeHTTP parseFloat fetchPoints fetchForecast requestCtx request).2 →
      c = Ctx.withTimeout requestCtx 2000) := by
  unfold ServeHTTP
  cases hv : validRequest parseFloat request with
  | invalid st msg =>
    simp [List.countP_cons, List.countP_nil, Event.isDeriveDeadline]
  | valid lat lon =>
    cases hg : forcastGrid (fetchPoints (Ctx.withTimeout requestCtx 2000)) lat lon with
    | error e =>
      simp [hg, List.countP_cons, List.countP_nil, Event.isDeriveDeadline]
    | ok ep =>
      cases hf : forecastGet (fetchForecast (Ctx.withTimeout requestCtx 2000)) ep with
      | error e =>
        simp [hg, hf, List.countP_cons, List.countP_nil, Event.isDeriveDeadline]
      | ok p =>
        obtain ⟨w, tp⟩ := p
        simp [hg, hf, List.countP_cons, List.countP_nil, Event.isDeriveDeadline]

/-- Witness for C5: on the fully successful concrete run, the trace has
exactly one deadline derivation and the forecast step's context is the
single 2000 ms-derived context. -/
theorem one_deadline_shared_context_witness :
    ((ServeHTTP parseFloatStub fetchPointsStub fetchForecastStub Ctx.base
        requestValid).2.countP Event.isDeriveDeadline = 1) ∧
    (∀ c, Event.forecastCall c ∈
        (ServeHTTP parseFloatStub fetchPointsStub fetchForecastStub Ctx.base
          requestValid).2 →
      c = Ctx.withTimeout Ctx.base 2000) :=
  ⟨(one_deadline_shared_context parseFloatStub fetchPointsStub fetchForecastStub
      Ctx.base requestValid).1,
   (one_deadline_shared_context parseFloatStub fetchPointsStub fetchForecastStub
      Ctx.base requestValid).2.2.2⟩

/-- C6: when both resolver steps succeed with short description `d` and
temperature `t`, the handler answers 200 with plain-text body exactly
`d ++ ", " ++ tempratureAnalog t ++ "\n"` and Content-Length set to
exactly that body's byte length. -/
theorem success_body_content_length
    (parseFloat : String → Except String GoFloat)
    (fetchPoints : Ctx → String → Except String PointsPayload)
    (fetchForecast : Ctx → String → Except String ForecastPayload)
    (requestCtx : Ctx) (request : HttpRequest) (lat lon : GoFloat)
    (url d : String) (t : GoFloat) (rest : List ForecastPeriod)
    (hv : validRequest parseFloat request = .valid lat lon)
    (hg : fetchPoints (Ctx.withTimeout requestCtx 2000) (pointsApi lat lon) =
      .ok ⟨url⟩)
    (hf : fetchForecast (Ctx.withTimeout requestCtx 2000) url =
      .ok ⟨⟨t, d⟩ :: rest⟩) :
    (ServeHTTP parseFloat fetchPoints fetchForecast requestCtx request).1 =
      { status := 200
        contentType := some "text/plain"
        contentLength := some (d ++ ", " ++ tempratureAnalog t ++ "\n").utf8ByteSize
        body := d ++ ", " ++ tempratureAnalog t ++ "\n" } := by
  have hgrid : forcastGrid (fetchPoints (Ctx.withTimeout requestCtx 2000)) lat lon =
      .ok url := by
    simp [forcastGrid, hg]
  have hget : forecastGet (fetchForecast (Ctx.withTimeout requestCtx 2000)) url =
      .ok (d, tempratureAnalog t) := by
    simp [forecastGet, hf]
  unfold ServeHTTP
  simp [hv, hgrid, hget]

/-- Witness for C6: the fully mocked upstream (72 degrees, "Sunny")
yields body "Sunny, moderate\n" with Content-Length 16. -/
theorem success_body_content_length_witness :
    (ServeHTTP parseFloatStub fetchPointsStub fetchForecastStub Ctx.base
        requestValid).1 =
      { status := 200
        contentType := some "text/plain"
        contentLength := some 16
        body := "Sunny, moderate\n" } := by
  have h := success_body_content_length parseFloatStub fetchPointsStub
    fetchForecastStub Ctx.base requestValid (.finite 1) (.finite 1)
    "https://api.weather.gov/gridpoints/EAX/44,51/forecast" "Sunny"
    (.finite 72) [] rfl rfl rfl
  rw [h]
  rfl

/-- C4: a forecast payload whose periods sequence is empty makes
`forecastGet` fail with the distinct "no periods found" error — the
embedding is a total function, so no element is accessed and no panic is
possible — and the pipeline maps that failure to a 500 response carrying
the message. -/
theorem empty_periods_no_data_500
    (parseFloat : String → Except String GoFloat)
    (fetchPoints : Ctx → String → Except String PointsPayload)
    (fetchForecast : Ctx → String → Except String ForecastPayload)
    (requestCtx : Ctx) (request : HttpRequest) (lat lon : GoFloat) (url : String)
    (hv : validRequest parseFloat request = .valid lat lon)
    (hg : fetchPoints (Ctx.withTimeout requestCtx 2000) (pointsApi lat lon) =
      .ok ⟨url⟩)
    (hf : fetchForecast (Ctx.withTimeout requestCtx 2000) url = .ok ⟨[]⟩) :
    forecastGet (fetchForecast (Ctx.withTimeout requestCtx 2000)) url =
      .error "no periods found" ∧
    (ServeHTTP parseFloat fetchPoints fetchForecast requestCtx request).1 =
      httpError "failed to fetch weather.gov forecast/temprature: no periods found"
        500 := by
  have hgrid : forcastGrid (fetchPoints (Ctx.withTimeout requestCtx 2000)) lat lon =
      .ok url := by
    simp [forcastGrid, hg]
  have hget : forecastGet (fetchForecast (Ctx.withTimeout requestCtx 2000)) url =
      .error "no periods found" := by
    simp [forecastGet, hf]
  refine ⟨hget, ?_⟩
  unfold ServeHTTP
  simp [hv, hgrid, hget]

/-- Witness for C4: the concrete empty-periods mock yields the 500
response with the "no periods found" message surfaced. -/
theorem empty_periods_no_data_500_witness :
    (ServeHTTP parseFloatStub fetchPointsStub fetchForecastEmptyStub Ctx.base
        requestValid).1 =
      httpError "failed to fetch weather.gov forecast/temprature: no periods found"
        500 :=
  (empty_periods_no_data_500 parseFloatStub fetchPointsStub fetchForecastEmptyStub
    Ctx.base requestValid (.finite 1) (.finite 1)
    "https://api.weather.gov/gridpoints/EAX/44,51/forecast" rfl rfl rfl).2

/-- Counterexample to C3 as stated: a successful fetch whose decoded
points payload has an empty `forecast` field (how Go decodes an absent
field) makes `forcastGrid` return `.ok ""` — no error is raised and the
empty endpoint is handed on, contradicting "fails with an error whenever
the forecast field is absent or empty". -/
theorem forcastGrid_empty_forecast_no_error :
    forcastGrid (fun _ => .ok ⟨""⟩) (.finite 39) (.finite (-94)) = .ok "" := rfl

/-- C3 (amended): `forcastGrid` fails exactly when the fetch fails,
propagating the fetch error unchanged; on any successful fetch it
returns the payload's `forecast` field unchecked, so an absent or empty
field silently yields the empty endpoint string with no error. -/
theorem forcastGrid_propagates_fetch_only
    (fetch : String → Except String PointsPayload) (lat lon : GoFloat) :
    (∀ e, fetch (pointsApi lat lon) = .error e →
      forcastGrid fetch lat lon = .error e) ∧
    (∀ p, fetch (pointsApi lat lon) = .ok p →
      forcastGrid fetch lat lon = .ok p.forecast) := by
  constructor
  · intro e h
    simp [forcastGrid, h]
  · intro p h
    simp [forcastGrid, h]

/-- Witness for the amended C3: a failing fetch propagates its message;
a successful fetch with an empty forecast field yields `.ok ""`. -/
theorem forcastGrid_propagates_fetch_only_witness :
    forcastGrid (fun _ => .error "unexpected status code: 404")
      (.finite 39) (.finite (-94)) = .error "unexpected status code: 404" ∧
    forcastGrid (fun _ => .ok ⟨""⟩) (.finite 1) (.finite 2) = .ok "" :=
  ⟨(forcastGrid_propagates_fetch_only (fun _ => .error "unexpected status code: 404")
      (.finite 39) (.finite (-94))).1 "unexpected status code: 404" rfl,
   (forcastGrid_propagates_fetch_only (fun _ => .ok ⟨""⟩)
      (.finite 1) (.finite 2)).2 ⟨""⟩ rfl⟩

/-- C8 (code bug): the claim (and the source comment "Safe to call
concurrently with startServer") require stop on a non-started server to
be a no-op that releases the mutex, but the early `return` in
`stopServer` skips `listnerMutext.Unlock()`: the call exits with the
mutex still held (and only the mutex changed), so any later start or
stop call blocks on `Lock()` forever. -/
theorem stopServer_not_started_leaves_mutex_held (s : LifecycleState)
    (h : s.listener = none) :
    stopServer s = { s with mutexHeld := true } := by
  simp [stopServer, h]

/-- Witness for C8: from the idle initial state (no listener, mutex
free), `stopServer` exits with the mutex held. -/
theorem stopServer_not_started_leaves_mutex_held_witness :
    stopServer ⟨none, false⟩ = ⟨none, true⟩ :=
  stopServer_not_started_leaves_mutex_held ⟨none, false⟩ rfl
